import Mathlib

set_option autoImplicit false
set_option linter.unusedVariables false

/-!
Shallow embedding of the core data layer of the Writing3D repository:
`src/pycave/features.py` (the schema-validated feature record),
`src/pycave/validators.py` (the validator predicates) and
`src/pycave/actions.py` (the action variants and their XML conversion).

Python values are modelled by `PyVal`, Python exceptions by `PyErr`, and every
fallible Python operation by a function into `Except PyErr _`.  A feature
instance is its attribute store, an association list from attribute name to
value; the class-level tables (`argument_validators`, `default_arguments`) are
passed explicitly.  XML element trees are modelled by `XMLElem`, mirroring the
in-memory `xml.etree.ElementTree.Element` objects the source manipulates
(attribute values may be arbitrary Python objects in memory, hence
`List (String × PyVal)`).
-/

/-- The Python exception kinds raised by the embedded code.  `keyError`,
`typeError`, `valueError` and `attributeError` are Python built-ins;
`invalidArgument`, `badCaveXML` and `consistencyError` model the classes of
`pycave/errors.py` (module absent from src/; the spec §7 names these three
error kinds). -/
inductive PyErr where
  | keyError (key : String)
  | typeError (msg : String)
  | valueError (msg : String)
  | attributeError (msg : String)
  | indexError (msg : String)
  | invalidArgument (msg : String)
  | badCaveXML (msg : String)
  | consistencyError (msg : String)
  deriving DecidableEq, Repr

/-- Python values as they occur in the embedded code: `None`, booleans,
integers, floats (modelled as rationals), strings, tuples, lists and the
opaque `CavePlacement` collaborator record (spec §3 treats Placement as an
opaque nested record; `placement.py` is absent from src/). -/
inductive PyVal where
  | none
  | bool (b : Bool)
  | int (n : Int)
  | float (q : Rat)
  | str (s : String)
  | tuple (elems : List PyVal)
  | list (elems : List PyVal)
  | placement (data : String)

/-- An in-memory XML element: tag, attribute dictionary, text and children,
as in `xml.etree.ElementTree.Element`. -/
inductive XMLElem where
  | mk (tag : String) (attrib : List (String × PyVal)) (text : Option String)
      (children : List XMLElem)

def XMLElem.tag : XMLElem → String
  | .mk t _ _ _ => t

def XMLElem.attrib : XMLElem → List (String × PyVal)
  | .mk _ a _ _ => a

def XMLElem.text : XMLElem → Option String
  | .mk _ _ x _ => x

def XMLElem.children : XMLElem → List XMLElem
  | .mk _ _ _ c => c

/-- `Element.find`: first direct child with the given tag, or `None`. -/
def xmlFind (e : XMLElem) (t : String) : Option XMLElem :=
  e.children.find? (fun c => c.tag == t)

/-- Python truthiness of a value (`bool(value)`). -/
def pyTruth : PyVal → Bool
  | .none => false
  | .bool b => b
  | .int n => n != 0
  | .float q => q != 0
  | .str s => s.length != 0
  | .tuple l => l.length != 0
  | .list l => l.length != 0
  | .placement _ => true

def digitsToNat (cs : List Char) : Nat :=
  cs.foldl (fun n c => n * 10 + (c.toNat - 48)) 0

def isSpaceChar (c : Char) : Bool :=
  c == ' ' || c == '\t' || c == '\n' || c == '\r'

/-- Leading and trailing whitespace removed from a character list. -/
def trimChars (cs : List Char) : List Char :=
  ((cs.dropWhile isSpaceChar).reverse.dropWhile isSpaceChar).reverse

/-- Python `str.strip()`. -/
def pyStrip (s : String) : String :=
  ⟨trimChars s.data⟩

/-- Splits a character list at each character satisfying `p` (the separators
are dropped; adjacent separators give empty pieces). -/
def splitChars (p : Char → Bool) : List Char → List (List Char)
  | [] => [[]]
  | c :: rest =>
    let r := splitChars p rest
    if p c then [] :: r
    else
      match r with
      | h :: t => (c :: h) :: t
      | [] => [[c]]

/-- Parsing of a decimal literal, the fragment of Python `float(str)` the
embedded code exercises: optional surrounding whitespace, optional sign,
digits with at most one decimal point.  Returns `none` when the string is not
such a literal (Python raises ValueError there). -/
def parseFloat (s : String) : Option Rat :=
  let t := trimChars s.data
  let su : Int × List Char :=
    match t with
    | '-' :: rest => (-1, rest)
    | '+' :: rest => (1, rest)
    | _ => (1, t)
  match splitChars (fun c => c == '.') su.2 with
  | [a] =>
    if a.length > 0 && a.all Char.isDigit then
      some ((su.1 : Rat) * (digitsToNat a : Rat))
    else Option.none
  | [a, b] =>
    if (a.length > 0 || b.length > 0) && a.all Char.isDigit && b.all Char.isDigit then
      some ((su.1 : Rat) *
        ((digitsToNat a : Rat) + (digitsToNat b : Rat) / ((10 : Rat) ^ b.length)))
    else Option.none
  | _ => Option.none

/-- Python `float(value)`: numbers convert, strings are parsed (ValueError on
failure), any other type raises TypeError. -/
def pyFloat : PyVal → Except PyErr Rat
  | .bool b => .ok (if b then 1 else 0)
  | .int n => .ok (n : Rat)
  | .float q => .ok q
  | .str s =>
    match parseFloat s with
    | some q => .ok q
    | Option.none => .error (.valueError ("could not convert string to float: " ++ s))
  | .none => .error (.typeError "float() argument must be a string or a number, not NoneType")
  | .tuple _ => .error (.typeError "float() argument must be a string or a number, not tuple")
  | .list _ => .error (.typeError "float() argument must be a string or a number, not list")
  | .placement _ =>
    .error (.typeError "float() argument must be a string or a number, not CavePlacement")

mutual

/-- Python `str(value)` as used in format strings of the embedded code.
String quoting inside containers is omitted; the rendering of non-integral
floats is inessential to every theorem below. -/
def pyFormat : PyVal → String
  | .none => "None"
  | .bool b => if b then "True" else "False"
  | .int n => toString n
  | .float q => if q.den == 1 then toString q.num ++ ".0" else toString q.num ++ "/" ++ toString q.den
  | .str s => s
  | .tuple l => "(" ++ String.intercalate ", " (pyFormatList l) ++ ")"
  | .list l => "[" ++ String.intercalate ", " (pyFormatList l) ++ "]"
  | .placement d => d

/-- Formats each element of a list, for `pyFormat` on containers. -/
def pyFormatList : List PyVal → List String
  | [] => []
  | v :: rest => pyFormat v :: pyFormatList rest

end

/-- Python iteration over a value: lists, tuples and strings (by character)
are iterable; iterating anything else raises TypeError, modelled as `none`. -/
def pyIter : PyVal → Option (List PyVal)
  | .tuple l => some l
  | .list l => some l
  | .str s => some (s.toList.map (fun c => PyVal.str (String.singleton c)))
  | _ => Option.none

/-- A validator is its `__call__` method; Python validators may raise
(see `IsNumeric.call`), hence the `Except`. -/
abbrev Validator := PyVal → Except PyErr Bool

/-- The attribute store of a feature instance (the underlying `dict`). -/
abbrev Store := List (String × PyVal)

/-- `validators.py` lines 74-85, `AlwaysValid.__call__`: returns True for
every value. -/
def AlwaysValid.call : Validator := fun _ => .ok true

/-- `validators.py` lines 5-15, `OptionListValidator.__call__`: membership of
the value in the fixed set of option strings (a non-string value is never
equal to any of them). -/
def OptionListValidator.call (valid_options : List String) : Validator := fun value =>
  .ok (match value with
       | .str s => valid_options.contains s
       | _ => false)

/-- `validators.py` lines 24-29, `IsNumeric.__call__`:
`try: float(value); return True; except TypeError: return False`.
Only TypeError is caught; the ValueError that `float` raises on a non-numeric
string propagates to the caller. -/
def IsNumeric.call : Validator := fun value =>
  match pyFloat value with
  | .ok _ => .ok true
  | .error (.typeError _) => .ok false
  | .error e => .error e

/-- `validators.py` lines 44-52, `IsNumericIterable.__call__`.  The loop body
reads `if not IsNumeric(value)`, calling the IsNumeric CONSTRUCTOR with a
positional argument; `IsNumeric.__init__` accepts none, so the call raises
TypeError inside the `try`, which the `except TypeError` clause converts to
`return False`.  Hence: non-iterables give False (TypeError on iteration,
caught), every non-empty iterable gives False (constructor TypeError, caught),
and only an empty iterable reaches the length check. -/
def IsNumericIterable.call (required_length : Option Nat) : Validator := fun iterable =>
  match pyIter iterable with
  | Option.none => .ok false
  | some [] =>
    .ok (match required_length with
         | Option.none => true
         | some n => decide (0 = n))
  | some (_ :: _) => .ok false

/-- `validators.py` lines 67-68, `CheckType.__call__`: the source reads
`isinstance(self.correct_type, value)` with the arguments swapped, so the
second argument is an attribute value rather than a type and `isinstance`
raises TypeError for every value of `PyVal` (none of which is a class
object). -/
def CheckType.call (correct_type : String) : Validator := fun _ =>
  .error (.typeError "isinstance() arg 2 must be a type or tuple of types")

/-- Writing `store[key] = value` on the underlying dict: the new binding
shadows any previous binding of `key` and leaves every other key untouched. -/
def storeSet (store : Store) (key : String) (value : PyVal) : Store :=
  (key, value) :: store.filter (fun kv => kv.1 ≠ key)

/-- `features.py` lines 45-52, `W3DFeature.__setitem__`: InvalidArgument when
the key is not in `argument_validators` or when the validator returns a falsy
verdict; otherwise the value is stored.  An exception raised by the validator
itself propagates unchanged. -/
def W3DFeature.setitem (validators : List (String × Validator)) (store : Store)
    (key : String) (value : PyVal) : Except PyErr Store :=
  match validators.lookup key with
  | Option.none =>
    .error (.invalidArgument (key ++ " not a valid option for this W3D feature"))
  | some f =>
    match f value with
    | .error e => .error e
    | .ok true => .ok (storeSet store key value)
    | .ok false =>
      .error (.invalidArgument (pyFormat value ++ " is not a valid value for option " ++ key))

/-- Reading `store[key]` on the feature: `dict.__getitem__` falls back to
`features.py` lines 54-55, `W3DFeature.__missing__`, which returns
`self.default_arguments[key]` — itself raising KeyError when the key has no
default. -/
def W3DFeature.getitem (default_arguments : List (String × PyVal)) (store : Store)
    (key : String) : Except PyErr PyVal :=
  match store.lookup key with
  | some v => .ok v
  | Option.none =>
    match default_arguments.lookup key with
    | some v => .ok v
    | Option.none => .error (.keyError key)

/-- `features.py` lines 81-84, `W3DFeature.is_default`: true iff no value has
been set for the key and a default exists. -/
def W3DFeature.is_default (default_arguments : List (String × PyVal)) (store : Store)
    (key : String) : Bool :=
  (store.lookup key).isNone && (default_arguments.lookup key).isSome

/-- Plain `dict.get(key, fallback)` (used by `ObjectAction.fromXML` for
`move_relative`); this does NOT route through `__missing__`. -/
def storeGet (store : Store) (key : String) (fallback : PyVal) : PyVal :=
  (store.lookup key).getD fallback

/-! ### Constructor argument binding

Python binds call arguments against a function's parameter list before the
body runs; a keyword that names no parameter raises TypeError.  The `init`
functions below model that binding step for each validator constructor, as
declared in `validators.py`. -/

/-- `validators.py` lines 21-22: `IsNumeric.__init__(self)` declares no
parameter besides `self`, so any positional or keyword argument raises
TypeError. -/
def IsNumeric.init (args : List PyVal) (kwargs : List (String × PyVal)) : Except PyErr Unit :=
  match args, kwargs with
  | [], [] => .ok ()
  | _ :: _, _ =>
    .error (.typeError "IsNumeric.__init__() takes 1 positional argument but more were given")
  | [], (k, _) :: _ =>
    .error (.typeError ("IsNumeric.__init__() got an unexpected keyword argument " ++ k))

/-- `validators.py` lines 77-78: `AlwaysValid.__init__(self, help_string=...)`
binds at most one argument, positionally or by the keyword `help_string`. -/
def AlwaysValid.init (args : List PyVal) (kwargs : List (String × PyVal)) : Except PyErr Unit :=
  if args.length > 1 then
    .error (.typeError "AlwaysValid.__init__() takes from 1 to 2 positional arguments but more were given")
  else if kwargs.any (fun kv => kv.1 != "help_string") then
    .error (.typeError "AlwaysValid.__init__() got an unexpected keyword argument")
  else if args.length == 1 && kwargs.length > 0 then
    .error (.typeError "AlwaysValid.__init__() got multiple values for argument help_string")
  else .ok ()

/-- `validators.py` lines 41-42: `IsNumericIterable.__init__(self,
required_length=None)` binds at most one argument, positionally or by the
keyword `required_length`. -/
def IsNumericIterable.init (args : List PyVal) (kwargs : List (String × PyVal)) :
    Except PyErr Unit :=
  if args.length > 1 then
    .error (.typeError "IsNumericIterable.__init__() takes from 1 to 2 positional arguments but more were given")
  else if kwargs.any (fun kv => kv.1 != "required_length") then
    .error (.typeError "IsNumericIterable.__init__() got an unexpected keyword argument")
  else if args.length == 1 && kwargs.length > 0 then
    .error (.typeError "IsNumericIterable.__init__() got multiple values for argument required_length")
  else .ok ()

/-- `validators.py` lines 8-9: `OptionListValidator.__init__(self,
*valid_options)` accepts any positional arguments and no keywords. -/
def OptionListValidator.init (args : List PyVal) (kwargs : List (String × PyVal)) :
    Except PyErr Unit :=
  match kwargs with
  | [] => .ok ()
  | (k, _) :: _ =>
    .error (.typeError ("OptionListValidator.__init__() got an unexpected keyword argument " ++ k))

/-- Evaluation of the dict literal at `actions.py` lines 95-106,
`ObjectAction.argument_validators`, as Python performs it when the class body
runs: each validator constructor is called in source order.  The calls
`IsNumeric(min_value=0)` (lines 97 and 102) pass a keyword the constructor
does not declare. -/
def ObjectAction.argument_validatorsEval : Except PyErr Unit := do
  AlwaysValid.init [.str "Name of an object"] []
  IsNumeric.init [] [("min_value", .int 0)]
  AlwaysValid.init [.str "Either true or false"] []
  AlwaysValid.init [.str "A CavePlacement object"] []
  AlwaysValid.init [.str "Either true or false"] []
  IsNumericIterable.init [] [("required_length", .int 3)]
  IsNumeric.init [] [("min_value", .int 0)]
  OptionListValidator.init [.str "Play Sound", .str "Stop Sound"] []
  OptionListValidator.init [.str "Enable", .str "Disable", .str "Activate", .str "Activate if enabled"] []

/-- Evaluation of the dict literal at `actions.py` lines 301-313,
`GroupAction.argument_validators` (same defective `IsNumeric(min_value=0)`
calls at lines 304 and 309). -/
def GroupAction.argument_validatorsEval : Except PyErr Unit := do
  AlwaysValid.init [.str "Name of a group"] []
  AlwaysValid.init [.str "Either true or false"] []
  IsNumeric.init [] [("min_value", .int 0)]
  AlwaysValid.init [.str "Either true or false"] []
  AlwaysValid.init [.str "A CavePlacement object"] []
  AlwaysValid.init [.str "Either true or false"] []
  IsNumericIterable.init [] [("required_length", .int 3)]
  IsNumeric.init [] [("min_value", .int 0)]
  OptionListValidator.init [.str "Play Sound", .str "Stop Sound"] []
  OptionListValidator.init [.str "Enable", .str "Disable", .str "Activate", .str "Activate if enabled"] []

/-- Evaluation of the dict literal at `actions.py` lines 607-611,
`MoveCaveAction.argument_validators` (defective `IsNumeric(min_value=0)` at
line 609). -/
def MoveCaveAction.argument_validatorsEval : Except PyErr Unit := do
  AlwaysValid.init [.str "Either true or false"] []
  IsNumeric.init [] [("min_value", .int 0)]
  AlwaysValid.init [.str "A CavePlacement object"] []

/-! ### Class-level tables

The validator tables below carry, for each key, the `__call__` of the
validator the source constructs for it.  For `ObjectAction`, `GroupAction`
and `MoveCaveAction`, evaluating the table in Python raises TypeError
(`IsNumeric` accepts no `min_value` keyword — see the `argument_validatorsEval`
functions above); the stray keyword is never consulted by
`IsNumeric.__call__`, and these tables let the methods that index them be
examined independently of that defect. -/

def ObjectAction.argument_validators : List (String × Validator) :=
  [("object_name", AlwaysValid.call),
   ("duration", IsNumeric.call),
   ("visible", AlwaysValid.call),
   ("placement", AlwaysValid.call),
   ("move_relative", AlwaysValid.call),
   ("color", IsNumericIterable.call (some 3)),
   ("scale", IsNumeric.call),
   ("sound_change", OptionListValidator.call ["Play Sound", "Stop Sound"]),
   ("link_change", OptionListValidator.call ["Enable", "Disable", "Activate", "Activate if enabled"])]

/-- `actions.py` lines 108-110. -/
def ObjectAction.default_arguments : List (String × PyVal) := [("duration", .int 1)]

/-- `actions.py` lines 112-114 (insertion order of the dict literal). -/
def ObjectAction.link_xml_tags : List (String × String) :=
  [("Enable", "link_on"), ("Disable", "link_off"), ("Activate", "activate"),
   ("Activate if enabled", "activate_if_on")]

def GroupAction.argument_validators : List (String × Validator) :=
  [("group_name", AlwaysValid.call),
   ("choose_random", AlwaysValid.call),
   ("duration", IsNumeric.call),
   ("visible", AlwaysValid.call),
   ("placement", AlwaysValid.call),
   ("move_relative", AlwaysValid.call),
   ("color", IsNumericIterable.call (some 3)),
   ("scale", IsNumeric.call),
   ("sound_change", OptionListValidator.call ["Play Sound", "Stop Sound"]),
   ("link_change", OptionListValidator.call ["Enable", "Disable", "Activate", "Activate if enabled"])]

/-- `actions.py` lines 315-318. -/
def GroupAction.default_arguments : List (String × PyVal) :=
  [("duration", .int 1), ("choose_random", .bool false)]

/-- `actions.py` lines 320-322. -/
def GroupAction.link_xml_tags : List (String × String) :=
  [("Enable", "link_on"), ("Disable", "link_off"), ("Activate", "activate"),
   ("Activate if enabled", "activate_if_on")]

/-- `actions.py` lines 436-440. -/
def TimelineAction.argument_validators : List (String × Validator) :=
  [("timeline_name", AlwaysValid.call),
   ("change", OptionListValidator.call ["Start", "Stop", "Continue", "Start if not started"])]

/-- `actions.py` line 442. -/
def TimelineAction.default_arguments : List (String × PyVal) := []

/-- `actions.py` lines 444-447 (insertion order of the dict literal). -/
def TimelineAction.change_xml_tags : List (String × String) :=
  [("Start", "start"), ("Stop", "stop"), ("Continue", "continue"),
   ("Start if not started", "start_if_not_started")]

/-- `actions.py` lines 501-504. -/
def SoundAction.argument_validators : List (String × Validator) :=
  [("sound_name", AlwaysValid.call),
   ("change", OptionListValidator.call ["Start", "Stop"])]

/-- `actions.py` lines 506-507. -/
def SoundAction.default_arguments : List (String × PyVal) := [("change", .str "Start")]

/-- `actions.py` lines 552-555. -/
def EventTriggerAction.argument_validators : List (String × Validator) :=
  [("trigger_name", AlwaysValid.call),
   ("enable", AlwaysValid.call)]

/-- `actions.py` line 557. -/
def EventTriggerAction.default_arguments : List (String × PyVal) := []

def MoveCaveAction.argument_validators : List (String × Validator) :=
  [("relative", AlwaysValid.call),
   ("duration", IsNumeric.call),
   ("placement", AlwaysValid.call)]

/-- `actions.py` lines 613-615. -/
def MoveCaveAction.default_arguments : List (String × PyVal) := [("duration", .int 0)]

/-! ### Collaborators absent from src/ -/

/-- Modelled from the spec: `xml_tools.py` is not under src/.  Spec §6:
"booleans serialize via a canonical true/false text form"; `bool2text` maps a
value to that form by its truth value. -/
def bool2text (value : PyVal) : String :=
  if pyTruth value then "true" else "false"

/-- Modelled from the spec: `xml_tools.py` is not under src/.  `text2bool`
reads the canonical true/false text form of a node's text back as a
boolean. -/
def text2bool (text : Option String) : Bool :=
  trimChars (text.getD "").data == "true".data

/-- Parsing of a decimal integer literal (Python `int(str)` on the inputs the
embedded code exercises). -/
def parseInt (s : String) : Option Int :=
  let t := trimChars s.data
  let su : Int × List Char :=
    match t with
    | '-' :: rest => (-1, rest)
    | _ => (1, t)
  if su.2.length > 0 && su.2.all Char.isDigit then
    some (su.1 * (digitsToNat su.2 : Int))
  else Option.none

/-- Modelled from the spec: `xml_tools.py` is not under src/.  Spec §6 has
tuples serialize as comma-joined literals, and spec §4.3 has `text2tuple`
(called with `evaluator=int` at `actions.py` line 183) raise InvalidArgument
when the text cannot be parsed as integers — the error the color recovery
path catches. -/
def text2tuple_int (text : String) : Except PyErr PyVal :=
  match (splitChars (fun c => c == ',') text.data).mapM (fun p => parseInt ⟨p⟩) with
  | some ns => .ok (.tuple (ns.map PyVal.int))
  | Option.none => .error (.invalidArgument ("Could not parse tuple from text " ++ text))

/-- Modelled from the spec: `placement.py` is not under src/.  Spec §3/§6
treat `CavePlacement` as an opaque collaborator record whose `toXML` appends a
`Placement` node holding its payload. -/
def CavePlacement.toXML (p : PyVal) : Except PyErr XMLElem :=
  match p with
  | .placement d => .ok (.mk "Placement" [] (some d) [])
  | _ => .error (.attributeError "object has no attribute toXML")

/-- Modelled from the spec: `placement.py` is not under src/.  Inverse of
`CavePlacement.toXML`, reconstructing the opaque payload from a `Placement`
node. -/
def CavePlacement.fromXML (node : XMLElem) : Except PyErr PyVal :=
  .ok (.placement (node.text.getD ""))

/-! ### ObjectAction XML conversion (`actions.py` lines 116-201) -/

/-- The format call `"{},{},{}".format(*color)` at `actions.py` line 138:
star-unpacking a non-iterable raises TypeError, and fewer than three supplied
elements leaves a replacement field without an argument (IndexError). -/
def formatThree (v : PyVal) : Except PyErr String :=
  match pyIter v with
  | Option.none => .error (.typeError "argument after * must be an iterable")
  | some (a :: b :: c :: _) => .ok (pyFormat a ++ "," ++ pyFormat b ++ "," ++ pyFormat c)
  | some _ => .error (.indexError "Replacement index out of range for positional args tuple")

/-- `actions.py` lines 116-148, `ObjectAction.toXML`: builds the
`ObjectChange` node inside `parent_root` and returns it.  Two traps are
inherited from the source verbatim: reading `self["object_name"]` (or
`self["move_relative"]` on the placement path) raises a bare KeyError when
the key was never set, and the `Sound` branch passes the SET literal
`{"action", self["sound_change"]}` (line 144) where ElementTree requires a
dict, so Element construction raises TypeError. -/
def ObjectAction.toXML (self : Store) : Except PyErr XMLElem := do
  let name ← W3DFeature.getitem ObjectAction.default_arguments self "object_name"
  let dur ← W3DFeature.getitem ObjectAction.default_arguments self "duration"
  let visKids : List XMLElem ←
    match self.lookup "visible" with
    | some v => pure [.mk "Visible" [] (some (bool2text v)) []]
    | Option.none => pure []
  let moveKids : List XMLElem ←
    match self.lookup "placement" with
    | Option.none => pure []
    | some p => do
      let mr ← W3DFeature.getitem ObjectAction.default_arguments self "move_relative"
      let inner ← CavePlacement.toXML p
      pure [.mk (if pyTruth mr then "MoveRel" else "Movement") [] Option.none [inner]]
  let colorKids : List XMLElem ←
    match self.lookup "color" with
    | some c => do
      let t ← formatThree c
      pure [.mk "Color" [] (some t) []]
    | Option.none => pure []
  let scaleKids : List XMLElem ←
    match self.lookup "scale" with
    | some v => pure [.mk "Scale" [] (some (pyFormat v)) []]
    | Option.none => pure []
  let soundKids : List XMLElem ←
    match self.lookup "sound_change" with
    | some _ => .error (.typeError "attrib must be dict, not set")
    | Option.none => pure []
  let linkKids : List XMLElem ←
    match self.lookup "link_change" with
    | Option.none => pure []
    | some v =>
      match v with
      | .str s =>
        match ObjectAction.link_xml_tags.lookup s with
        | some t => pure [.mk "LinkChange" [] Option.none [.mk t [] Option.none []]]
        | Option.none => .error (.keyError s)
      | _ => .error (.keyError (pyFormat v))
  pure (.mk "ObjectChange" [("name", name)] Option.none
    [.mk "Transition" [("duration", dur)] Option.none
      (visKids ++ moveKids ++ colorKids ++ scaleKids ++ soundKids ++ linkKids)])

/-- The tuple unpacking performed by `for key, value in <dict>:` when the
iterated object is the dict itself: iteration yields the KEYS, and each key
string is unpacked into the pair `(key, value)`, which raises ValueError
unless the string has exactly two characters. -/
def unpackPair (s : String) : Except PyErr (String × String) :=
  match s.toList with
  | [a, b] => .ok (String.singleton a, String.singleton b)
  | [] => .error (.valueError "not enough values to unpack (expected 2, got 0)")
  | [_] => .error (.valueError "not enough values to unpack (expected 2, got 1)")
  | _ => .error (.valueError "too many values to unpack (expected 2)")

/-- The loop at `actions.py` lines 196-199 (and its copy at lines 416-419):
`for key, value in new_action.link_xml_tags:` followed by
`if node.find(value) is not None: new_action["link_change"] = key; break`.
The unpacking of each iterated key happens before the body runs; `node` may
be Python None, in which case `.find` raises AttributeError. -/
def linkChangeLoop (validators : List (String × Validator)) (tags : List String)
    (node : Option XMLElem) (s : Store) : Except PyErr Store :=
  match tags with
  | [] => .ok s
  | k :: rest => do
    let kv ← unpackPair k
    match node with
    | Option.none => .error (.attributeError "NoneType object has no attribute find")
    | some n =>
      match xmlFind n kv.2 with
      | some _ => W3DFeature.setitem validators s "link_change" (.str kv.1)
      | Option.none => linkChangeLoop validators rest node s

/-- `actions.py` lines 150-201, `ObjectAction.fromXML`, statement by
statement.  Notable inherited behaviours: a missing `Transition` child leaves
`trans_root` as None and the next attribute access raises AttributeError; the
Color recovery catches InvalidArgument but its fallback assignment goes
through `__setitem__` and the same (defective) color validator; the Scale
recovery catches only TypeError although the expression raises AttributeError
(absent text) or ValueError (unparsable text); and the final link-change loop
iterates the `link_xml_tags` dict itself, so its first key already fails
tuple unpacking. -/
def ObjectAction.fromXML (action_root : XMLElem) : Except PyErr Store := do
  let vals := ObjectAction.argument_validators
  let s : Store := []
  let s ←
    match action_root.attrib.lookup "name" with
    | some v => W3DFeature.setitem vals s "object_name" v
    | Option.none => .error (.badCaveXML "ObjectChange node must have name attribute set")
  let trans ←
    match xmlFind action_root "Transition" with
    | some t => pure t
    | Option.none => .error (.attributeError "NoneType object has no attribute attrib")
  let s ←
    match trans.attrib.lookup "duration" with
    | some v => do
      let q ← pyFloat v
      W3DFeature.setitem vals s "duration" (.float q)
    | Option.none => pure s
  let s ←
    match xmlFind trans "Visible" with
    | some node => W3DFeature.setitem vals s "visible" (.bool (text2bool node.text))
    | Option.none => pure s
  let mrFound := xmlFind trans "MoveRel"
  let s ←
    match mrFound with
    | some _ => W3DFeature.setitem vals s "move_relative" (.bool true)
    | Option.none => pure s
  let node :=
    match mrFound with
    | some n => some n
    | Option.none => xmlFind trans "Movement"
  let s ←
    match node with
    | some n => do
      let s ← W3DFeature.setitem vals s "move_relative" (storeGet s "move_relative" (.bool false))
      match xmlFind n "Placement" with
      | Option.none => .error (.badCaveXML "Movement or MoveRel node requires Placement child node")
      | some pl => do
        let p ← CavePlacement.fromXML pl
        W3DFeature.setitem vals s "placement" p
    | Option.none => pure s
  let s ←
    match xmlFind trans "Color" with
    | some node => do
      let attempt : Except PyErr Store :=
        match node.text with
        | Option.none => .error (.attributeError "NoneType object has no attribute split")
        | some t => do
          let tv ← text2tuple_int t
          W3DFeature.setitem vals s "color" tv
      match attempt with
      | .ok s2 => pure s2
      | .error (.invalidArgument _) =>
        W3DFeature.setitem vals s "color" (.tuple [.int 255, .int 255, .int 255])
      | .error e => .error e
    | Option.none => pure s
  let s ←
    match xmlFind trans "Scale" with
    | some node => do
      let attempt : Except PyErr Store :=
        match node.text with
        | Option.none => .error (.attributeError "NoneType object has no attribute strip")
        | some t => do
          let q ← pyFloat (.str (pyStrip t))
          W3DFeature.setitem vals s "scale" (.float q)
      match attempt with
      | .error (.typeError _) => W3DFeature.setitem vals s "scale" (.int 1)
      | r => r
    | Option.none => pure s
  let s ←
    match xmlFind trans "Sound" with
    | some node =>
      match node.text with
      | Option.none => .error (.attributeError "NoneType object has no attribute strip")
      | some t => W3DFeature.setitem vals s "sound_change" (.str (pyStrip t))
    | Option.none => pure s
  linkChangeLoop vals (ObjectAction.link_xml_tags.map Prod.fst) (xmlFind trans "LinkChange") s

/-! ### The remaining variants (`actions.py` lines 283-698) -/

/-- `actions.py` lines 366-421, `GroupAction.fromXML`: identical to
`ObjectAction.fromXML` except for the `group_name` attribute, the optional
`random` attribute (stored raw under `choose_random`), the error messages and
the tables used; it ends with the same defective link-change loop. -/
def GroupAction.fromXML (action_root : XMLElem) : Except PyErr Store := do
  let vals := GroupAction.argument_validators
  let s : Store := []
  let s ←
    match action_root.attrib.lookup "name" with
    | some v => W3DFeature.setitem vals s "group_name" v
    | Option.none => .error (.badCaveXML "GroupRef node must have name attribute set")
  let s ←
    match action_root.attrib.lookup "random" with
    | some v => W3DFeature.setitem vals s "choose_random" v
    | Option.none => pure s
  let trans ←
    match xmlFind action_root "Transition" with
    | some t => pure t
    | Option.none => .error (.attributeError "NoneType object has no attribute attrib")
  let s ←
    match trans.attrib.lookup "duration" with
    | some v => do
      let q ← pyFloat v
      W3DFeature.setitem vals s "duration" (.float q)
    | Option.none => pure s
  let s ←
    match xmlFind trans "Visible" with
    | some node => W3DFeature.setitem vals s "visible" (.bool (text2bool node.text))
    | Option.none => pure s
  let mrFound := xmlFind trans "MoveRel"
  let s ←
    match mrFound with
    | some _ => W3DFeature.setitem vals s "move_relative" (.bool true)
    | Option.none => pure s
  let node :=
    match mrFound with
    | some n => some n
    | Option.none => xmlFind trans "Movement"
  let s ←
    match node with
    | some n => do
      let s ← W3DFeature.setitem vals s "move_relative" (storeGet s "move_relative" (.bool false))
      match xmlFind n "Placement" with
      | Option.none => .error (.badCaveXML "Movement or MoveRel node requires Placement child node")
      | some pl => do
        let p ← CavePlacement.fromXML pl
        W3DFeature.setitem vals s "placement" p
    | Option.none => pure s
  let s ←
    match xmlFind trans "Color" with
    | some node => do
      let attempt : Except PyErr Store :=
        match node.text with
        | Option.none => .error (.attributeError "NoneType object has no attribute split")
        | some t => do
          let tv ← text2tuple_int t
          W3DFeature.setitem vals s "color" tv
      match attempt with
      | .ok s2 => pure s2
      | .error (.invalidArgument _) =>
        W3DFeature.setitem vals s "color" (.tuple [.int 255, .int 255, .int 255])
      | .error e => .error e
    | Option.none => pure s
  let s ←
    match xmlFind trans "Scale" with
    | some node => do
      let attempt : Except PyErr Store :=
        match node.text with
        | Option.none => .error (.attributeError "NoneType object has no attribute strip")
        | some t => do
          let q ← pyFloat (.str (pyStrip t))
          W3DFeature.setitem vals s "scale" (.float q)
      match attempt with
      | .error (.typeError _) => W3DFeature.setitem vals s "scale" (.int 1)
      | r => r
    | Option.none => pure s
  let s ←
    match xmlFind trans "Sound" with
    | some node =>
      match node.text with
      | Option.none => .error (.attributeError "NoneType object has no attribute strip")
      | some t => W3DFeature.setitem vals s "sound_change" (.str (pyStrip t))
    | Option.none => pure s
  linkChangeLoop vals (GroupAction.link_xml_tags.map Prod.fst) (xmlFind trans "LinkChange") s

/-- `actions.py` lines 449-467, `TimelineAction.toXML`: both required reads
are wrapped in try/except KeyError and re-raised as ConsistencyError.  The
second try also covers the `change_xml_tags[self["change"]]` dict lookup, so
an out-of-table change value is reported the same way. -/
def TimelineAction.toXML (self : Store) : Except PyErr XMLElem :=
  match W3DFeature.getitem TimelineAction.default_arguments self "timeline_name" with
  | .error (.keyError _) =>
    .error (.consistencyError "TimelineAction must have timeline_name key set")
  | .error e => .error e
  | .ok name =>
    match W3DFeature.getitem TimelineAction.default_arguments self "change" with
    | .error (.keyError _) =>
      .error (.consistencyError "TimelineAction must have change key set")
    | .error e => .error e
    | .ok change =>
      match change with
      | .str c =>
        match TimelineAction.change_xml_tags.lookup c with
        | some t =>
          .ok (.mk "TimerChange" [("name", name)] Option.none [.mk t [] Option.none []])
        | Option.none => .error (.consistencyError "TimelineAction must have change key set")
      | _ => .error (.consistencyError "TimelineAction must have change key set")

/-- `actions.py` lines 469-488, `TimelineAction.fromXML`: line 475 reads
`new_action = action_class` WITHOUT parentheses, binding the class object
itself instead of an instance.  The right-hand side `attrib["name"]` is
evaluated first (KeyError → BadCaveXML); when the attribute is present, the
item assignment on the class object raises TypeError. -/
def TimelineAction.fromXML (timer_change_root : XMLElem) : Except PyErr Store :=
  match timer_change_root.attrib.lookup "name" with
  | Option.none => .error (.badCaveXML "TimerChange node must have name attribute set")
  | some _ => .error (.typeError "type object does not support item assignment")

/-- `actions.py` lines 509-523, `SoundAction.toXML`: the `sound_name` read is
guarded by try/except KeyError → ConsistencyError; the `action` attribute is
emitted only when `change` is non-default. -/
def SoundAction.toXML (self : Store) : Except PyErr XMLElem :=
  match W3DFeature.getitem SoundAction.default_arguments self "sound_name" with
  | .error (.keyError _) =>
    .error (.consistencyError "SoundAction must specify sound_name to act on")
  | .error e => .error e
  | .ok name =>
    if W3DFeature.is_default SoundAction.default_arguments self "change" then
      .ok (.mk "SoundRef" [("name", name)] Option.none [])
    else
      match W3DFeature.getitem SoundAction.default_arguments self "change" with
      | .ok c => .ok (.mk "SoundRef" [("name", name), ("action", c)] Option.none [])
      | .error e => .error e

/-- `actions.py` lines 525-539, `SoundAction.fromXML`. -/
def SoundAction.fromXML (soundref_root : XMLElem) : Except PyErr Store := do
  let vals := SoundAction.argument_validators
  let s ←
    match soundref_root.attrib.lookup "name" with
    | some v => W3DFeature.setitem vals [] "sound_name" v
    | Option.none => .error (.badCaveXML "SoundRef node must specify name attribute")
  match soundref_root.attrib.lookup "action" with
  | some v => W3DFeature.setitem vals s "change" v
  | Option.none => pure s

/-- `actions.py` lines 578-592, `EventTriggerAction.fromXML`: the method sets
`trigger_name` and `enable` on a fresh instance but has NO return statement,
so the call falls off the end and returns Python None — modelled by the
`Option Store` result, `none` being Python None. -/
def EventTriggerAction.fromXML (event_root : XMLElem) : Except PyErr (Option Store) := do
  let vals := EventTriggerAction.argument_validators
  let s ←
    match event_root.attrib.lookup "name" with
    | some v => W3DFeature.setitem vals [] "trigger_name" v
    | Option.none => .error (.badCaveXML "Event node must specify name attribute")
  let _s ←
    match event_root.attrib.lookup "enable" with
    | some v => W3DFeature.setitem vals s "enable" v
    | Option.none => .error (.badCaveXML "Event node must specify enable attribute")
  pure Option.none

/-- `actions.py` lines 644-667, `MoveCaveAction.fromXML`: the `duration`
attribute is stored raw (no float conversion); exactly one of
`Relative`/`Absolute` children selects the `relative` flag; a `Placement`
child is required. -/
def MoveCaveAction.fromXML (move_cave_root : XMLElem) : Except PyErr Store := do
  let vals := MoveCaveAction.argument_validators
  let s : Store := []
  let s ←
    match move_cave_root.attrib.lookup "duration" with
    | some v => W3DFeature.setitem vals s "duration" v
    | Option.none => pure s
  let s ←
    if (xmlFind move_cave_root "Relative").isSome then
      W3DFeature.setitem vals s "relative" (.bool true)
    else if (xmlFind move_cave_root "Absolute").isSome then
      W3DFeature.setitem vals s "relative" (.bool false)
    else
      .error (.badCaveXML "MoveCave node must contain either Absolute or Relative child")
  match xmlFind move_cave_root "Placement" with
  | Option.none => .error (.badCaveXML "MoveCave node must contain Placement child node")
  | some pl => do
    let p ← CavePlacement.fromXML pl
    W3DFeature.setitem vals s "placement" p

/-- `actions.py` lines 687-693, `CaveResetAction.fromXML`: returns a fresh
empty instance. -/
def CaveResetAction.fromXML (restart_root : XMLElem) : Except PyErr Store :=
  .ok []

/-- The value returned by the `CaveAction.fromXML` factory: an instance of
one of the seven variant classes, or Python None (which
`EventTriggerAction.fromXML` produces by falling off the end). -/
inductive CaveActionResult where
  | objectAction (s : Store)
  | groupAction (s : Store)
  | timelineAction (s : Store)
  | soundAction (s : Store)
  | eventTriggerAction (s : Store)
  | moveCaveAction (s : Store)
  | caveResetAction (s : Store)
  | pyNone

/-- `actions.py` lines 54-76, `CaveAction.fromXML`: the tag-dispatch factory.
Each of the seven known tags is forwarded to the matching variant's fromXML;
any other tag raises BadCaveXML naming the tag. -/
def CaveAction.fromXML (action_root : XMLElem) : Except PyErr CaveActionResult :=
  if action_root.tag == "ObjectChange" then
    (ObjectAction.fromXML action_root).map CaveActionResult.objectAction
  else if action_root.tag == "GroupRef" then
    (GroupAction.fromXML action_root).map CaveActionResult.groupAction
  else if action_root.tag == "TimerChange" then
    (TimelineAction.fromXML action_root).map CaveActionResult.timelineAction
  else if action_root.tag == "SoundRef" then
    (SoundAction.fromXML action_root).map CaveActionResult.soundAction
  else if action_root.tag == "Event" then
    (EventTriggerAction.fromXML action_root).map (fun r =>
      match r with
      | some s => CaveActionResult.eventTriggerAction s
      | Option.none => CaveActionResult.pyNone)
  else if action_root.tag == "MoveCave" then
    (MoveCaveAction.fromXML action_root).map CaveActionResult.moveCaveAction
  else if action_root.tag == "Restart" then
    (CaveResetAction.fromXML action_root).map CaveActionResult.caveResetAction
  else
    .error (.badCaveXML
      ("Indicated action " ++ action_root.tag ++ " is not a valid action type"))

/-! ### Helper lemmas -/

theorem setitem_ok_iff (validators : List (String × Validator)) (store : Store)
    (key : String) (value : PyVal) :
    (∃ s2, W3DFeature.setitem validators store key value = .ok s2) ↔
      (∃ f, validators.lookup key = some f ∧ f value = .ok true) := by
  constructor
  · rintro ⟨s2, hs⟩
    unfold W3DFeature.setitem at hs
    cases h : validators.lookup key with
    | none => simp [h] at hs
    | some f =>
      simp only [h] at hs
      cases hv : f value with
      | error e => simp [hv] at hs
      | ok b =>
        cases b with
        | true => exact ⟨f, rfl, hv⟩
        | false => simp [hv] at hs
  · rintro ⟨f, hf, hv⟩
    refine ⟨storeSet store key value, ?_⟩
    unfold W3DFeature.setitem
    simp [hf, hv]

theorem setitem_ok_eq (validators : List (String × Validator)) (store : Store)
    (key : String) (value : PyVal) (s2 : Store)
    (h : W3DFeature.setitem validators store key value = .ok s2) :
    s2 = storeSet store key value := by
  unfold W3DFeature.setitem at h
  cases hl : validators.lookup key with
  | none => simp [hl] at h
  | some f =>
    simp only [hl] at h
    cases hv : f value with
    | error e => simp [hv] at h
    | ok b =>
      cases b with
      | true => simp only [hv] at h; injection h with h2; exact h2.symm
      | false => simp [hv] at h

theorem lookup_storeSet (store : Store) (key : String) (value : PyVal) :
    (storeSet store key value).lookup key = some value := by
  unfold storeSet
  simp [List.lookup]

/-! ### Claim theorems -/

/-- C1: the round-trip law fails for ObjectAction.  With the required
`object_name` explicitly (and legally) set, `toXML` builds the `ObjectChange`
node, but `ObjectAction.fromXML` on that very node raises ValueError: its
final loop iterates the `link_xml_tags` dict itself (yielding keys, not
pairs), so the first key "Enable" already fails tuple unpacking
(`actions.py` line 196).  No explicitly set attribute survives, because no
round trip ever completes. -/
theorem c1_objectaction_roundtrip_code_bug :
    W3DFeature.setitem ObjectAction.argument_validators [] "object_name" (.str "Table")
      = .ok [("object_name", .str "Table")]
  ∧ (ObjectAction.toXML [("object_name", .str "Table")]).bind ObjectAction.fromXML
      = .error (.valueError "too many values to unpack (expected 2)") :=
  ⟨rfl, rfl⟩

/-- C2: the factory `CaveAction.fromXML` recognises all seven tags and
rejects any other tag with BadCaveXML naming it, but it does NOT return an
instance of the matching variant for every known tag: for `TimerChange`,
`TimelineAction.fromXML` binds the class object instead of an instance
(`actions.py` line 475, `new_action = action_class` without parentheses) and
the subsequent item assignment raises TypeError; for `Event`,
`EventTriggerAction.fromXML` has no return statement and the factory yields
Python None. -/
theorem c2_dispatch_code_bug :
    CaveAction.fromXML (.mk "TimerChange" [("name", .str "intro")] Option.none
        [.mk "start" [] Option.none []])
      = .error (.typeError "type object does not support item assignment")
  ∧ CaveAction.fromXML (.mk "Event" [("name", .str "trig"), ("enable", .str "true")]
        Option.none [])
      = .ok CaveActionResult.pyNone
  ∧ CaveAction.fromXML (.mk "Bogus" [] Option.none [])
      = .error (.badCaveXML "Indicated action Bogus is not a valid action type") :=
  ⟨rfl, rfl, rfl⟩

/-- C3: for every schema (validator table), store, key and value,
`W3DFeature.__setitem__` fails with InvalidArgument when the key is not in
the table, fails with InvalidArgument when the key's validator rejects the
value, succeeds exactly when the key is in the table and its validator
returns true, and on success writes exactly the single key (the functional
embedding returns the unchanged-store error on every failure path, so no
partial write exists). -/
theorem c3_setitem_schema_validation (validators : List (String × Validator))
    (store : Store) (key : String) (value : PyVal) :
    ((∃ s2, W3DFeature.setitem validators store key value = .ok s2) ↔
      (∃ f, validators.lookup key = some f ∧ f value = .ok true))
  ∧ (validators.lookup key = Option.none →
      W3DFeature.setitem validators store key value
        = .error (.invalidArgument (key ++ " not a valid option for this W3D feature")))
  ∧ (∀ f, validators.lookup key = some f → f value = .ok false →
      W3DFeature.setitem validators store key value
        = .error (.invalidArgument (pyFormat value ++ " is not a valid value for option " ++ key)))
  ∧ (∀ s2, W3DFeature.setitem validators store key value = .ok s2 →
      s2 = storeSet store key value) := by
  refine ⟨setitem_ok_iff validators store key value, ?_, ?_, ?_⟩
  · intro h
    unfold W3DFeature.setitem
    simp [h]
  · intro f hf hv
    unfold W3DFeature.setitem
    simp [hf, hv]
  · intro s2 h
    exact setitem_ok_eq validators store key value s2 h

/-- Witness for C3: concrete instantiations on the SoundAction schema —
an out-of-schema key fails, a value the option-list validator rejects fails,
and a legal value succeeds. -/
theorem c3_setitem_schema_validation_witness :
    W3DFeature.setitem SoundAction.argument_validators [] "bogus" (.int 0)
      = .error (.invalidArgument "bogus not a valid option for this W3D feature")
  ∧ W3DFeature.setitem SoundAction.argument_validators [] "change" (.str "Later")
      = .error (.invalidArgument "Later is not a valid value for option change")
  ∧ (∃ s2, W3DFeature.setitem SoundAction.argument_validators [] "change" (.str "Start")
      = .ok s2) := by
  refine ⟨?_, ?_, ?_⟩
  · exact (c3_setitem_schema_validation SoundAction.argument_validators [] "bogus"
      (.int 0)).2.1 rfl
  · exact (c3_setitem_schema_validation SoundAction.argument_validators [] "change"
      (.str "Later")).2.2.1 (OptionListValidator.call ["Start", "Stop"]) rfl rfl
  · exact (c3_setitem_schema_validation SoundAction.argument_validators [] "change"
      (.str "Start")).1.mpr ⟨OptionListValidator.call ["Start", "Stop"], rfl, rfl⟩

/-- C4: for any feature, any unset key: reading falls back to the schema
default when one exists and raises KeyError otherwise; `is_default` is true
exactly when the key is absent from the store and present in the defaults
table; and after a successful `set` of the key, `is_default` is false. -/
theorem c4_default_fallback (validators : List (String × Validator))
    (default_arguments : List (String × PyVal)) (store : Store) (key : String) :
    (∀ d, store.lookup key = Option.none → default_arguments.lookup key = some d →
      W3DFeature.getitem default_arguments store key = .ok d)
  ∧ (store.lookup key = Option.none → default_arguments.lookup key = Option.none →
      W3DFeature.getitem default_arguments store key = .error (.keyError key))
  ∧ (W3DFeature.is_default default_arguments store key = true ↔
      (store.lookup key = Option.none ∧ ∃ d, default_arguments.lookup key = some d))
  ∧ (∀ value s2, W3DFeature.setitem validators store key value = .ok s2 →
      W3DFeature.is_default default_arguments s2 key = false) := by
  refine ⟨?_, ?_, ?_, ?_⟩
  · intro d hs hd
    unfold W3DFeature.getitem
    rw [hs, hd]
  · intro hs hd
    unfold W3DFeature.getitem
    rw [hs, hd]
  · unfold W3DFeature.is_default
    constructor
    · intro h
      rcases Bool.and_eq_true_iff.mp h with ⟨h1, h2⟩
      refine ⟨Option.isNone_iff_eq_none.mp h1, ?_⟩
      cases hd : default_arguments.lookup key with
      | none => rw [hd] at h2; cases h2
      | some d => exact ⟨d, rfl⟩
    · rintro ⟨h1, d, h2⟩
      rw [h1, h2]
      rfl
  · intro value s2 h
    have h2 := setitem_ok_eq validators store key value s2 h
    unfold W3DFeature.is_default
    rw [h2, lookup_storeSet]
    rfl

/-- Witness for C4: concrete instantiations on the SoundAction schema —
`change` falls back to its default "Start" and is default on a fresh record,
`sound_name` (no default) raises KeyError, and after setting `change` it is
no longer default. -/
theorem c4_default_fallback_witness :
    W3DFeature.getitem SoundAction.default_arguments [] "change" = .ok (.str "Start")
  ∧ W3DFeature.getitem SoundAction.default_arguments [] "sound_name"
      = .error (.keyError "sound_name")
  ∧ W3DFeature.is_default SoundAction.default_arguments [] "change" = true
  ∧ W3DFeature.is_default SoundAction.default_arguments [("change", .str "Stop")] "change"
      = false := by
  refine ⟨?_, ?_, ?_, ?_⟩
  · exact (c4_default_fallback SoundAction.argument_validators SoundAction.default_arguments
      [] "change").1 (.str "Start") rfl rfl
  · exact (c4_default_fallback SoundAction.argument_validators SoundAction.default_arguments
      [] "sound_name").2.1 rfl rfl
  · exact (c4_default_fallback SoundAction.argument_validators SoundAction.default_arguments
      [] "change").2.2.1.mpr ⟨rfl, .str "Start", rfl⟩
  · exact (c4_default_fallback SoundAction.argument_validators SoundAction.default_arguments
      [] "change").2.2.2 (.str "Stop") [("change", .str "Stop")] rfl

/-- C5: validators do NOT always return a boolean without raising.
`IsNumeric.__call__` catches only TypeError while `float("abc")` raises
ValueError, which therefore propagates to the caller; `CheckType.__call__`
passes its arguments to `isinstance` swapped, so it raises TypeError for
every attribute value.  (For contrast, the genuinely non-raising inputs
behave as specified: a number gives true and a None gives false.) -/
theorem c5_validator_call_code_bug :
    IsNumeric.call (.str "abc")
      = .error (.valueError "could not convert string to float: abc")
  ∧ CheckType.call "int" (.int 5)
      = .error (.typeError "isinstance() arg 2 must be a type or tuple of types")
  ∧ IsNumeric.call (.int 3) = .ok true
  ∧ IsNumeric.call .none = .ok false :=
  ⟨rfl, rfl, rfl, rfl⟩

/-- C6: `IsNumericIterable(3)` does return false on the claim's example
`["a", 1, 2]` and on a non-iterable, but it ALSO returns false on the fully
numeric 3-element list `[1, 2, 3]`: the loop body calls the IsNumeric
constructor with a positional argument, the resulting TypeError is caught,
and every non-empty iterable is rejected.  The claimed characterisation
("true exactly when iterable, all-numeric and of the required length") fails
at `[1, 2, 3]`. -/
theorem c6_isnumericiterable_code_bug :
    IsNumericIterable.call (some 3) (.list [.str "a", .int 1, .int 2]) = .ok false
  ∧ IsNumericIterable.call (some 3) (.list [.int 1, .int 2, .int 3]) = .ok false
  ∧ IsNumericIterable.call (some 3) (.int 7) = .ok false :=
  ⟨rfl, rfl, rfl⟩

/-- C7: on an `Event` node carrying both `name` and `enable`,
`EventTriggerAction.fromXML` performs both validated assignments and then
falls off the end of the method without a return statement, so the caller
receives Python None (`Option.none` here) rather than an EventTriggerAction
instance. -/
theorem c7_eventtrigger_fromxml_code_bug :
    EventTriggerAction.fromXML
        (.mk "Event" [("name", .str "trig"), ("enable", .str "true")] Option.none [])
      = .ok Option.none :=
  rfl

/-- C8 counterexample: `ObjectAction.toXML` on an instance whose required
`object_name` was never set raises a bare KeyError, not the ConsistencyError
the claim asserts for every variant (the method has no try/except, unlike
the other variants). -/
theorem c8_objectaction_toxml_counterexample :
    ObjectAction.toXML [] = .error (.keyError "object_name") :=
  rfl

/-- C8 amended: serializing with a required attribute never set fails with
ConsistencyError naming the missing key for TimelineAction (both
`timeline_name` and `change`) and SoundAction (`sound_name`), but
ObjectAction.toXML raises the underlying KeyError for its required
`object_name` instead. -/
theorem c8_serialize_missing_required_key :
    TimelineAction.toXML []
      = .error (.consistencyError "TimelineAction must have timeline_name key set")
  ∧ TimelineAction.toXML [("timeline_name", .str "intro")]
      = .error (.consistencyError "TimelineAction must have change key set")
  ∧ SoundAction.toXML []
      = .error (.consistencyError "SoundAction must specify sound_name to act on")
  ∧ ObjectAction.toXML [] = .error (.keyError "object_name") :=
  ⟨rfl, rfl, rfl, rfl⟩

/-- C9: the lenient-recovery policy does not hold on the code.  A `Scale`
child with absent text makes `node.text.strip()` raise AttributeError and an
unparsable text makes `float` raise ValueError — the except clause catches
only TypeError, so neither resolves to 1 and fromXML raises.  A `Color`
child with unparsable text has its InvalidArgument caught, but the fallback
assignment of (255, 255, 255) goes through `__setitem__` and the defective
color validator (see C6) rejects it, so fromXML raises InvalidArgument
instead of storing the fallback. -/
theorem c9_lenient_recovery_code_bug :
    ObjectAction.fromXML (.mk "ObjectChange" [("name", .str "o")] Option.none
        [.mk "Transition" [] Option.none [.mk "Scale" [] Option.none []]])
      = .error (.attributeError "NoneType object has no attribute strip")
  ∧ ObjectAction.fromXML (.mk "ObjectChange" [("name", .str "o")] Option.none
        [.mk "Transition" [] Option.none [.mk "Scale" [] (some "not a number") []]])
      = .error (.valueError "could not convert string to float: not a number")
  ∧ ObjectAction.fromXML (.mk "ObjectChange" [("name", .str "o")] Option.none
        [.mk "Transition" [] Option.none [.mk "Color" [] (some "not,a,color") []]])
      = .error (.invalidArgument "(255, 255, 255) is not a valid value for option color") :=
  ⟨rfl, rfl, rfl⟩

/-- C10: evaluating the `argument_validators` dict literals of ObjectAction,
GroupAction and MoveCaveAction calls `IsNumeric(min_value=0)`, and
`IsNumeric.__init__` declares no such parameter: the class-body evaluation
fails with TypeError in all three cases, so none of these variant classes
can ever be created (hence no instance constructed). -/
theorem c10_validator_table_type_error :
    ObjectAction.argument_validatorsEval
      = .error (.typeError "IsNumeric.__init__() got an unexpected keyword argument min_value")
  ∧ GroupAction.argument_validatorsEval
      = .error (.typeError "IsNumeric.__init__() got an unexpected keyword argument min_value")
  ∧ MoveCaveAction.argument_validatorsEval
      = .error (.typeError "IsNumeric.__init__() got an unexpected keyword argument min_value") :=
  ⟨rfl, rfl, rfl⟩
